import Mathlib

/-!
Verification of the single-target track lifecycle of
`src/libs/deep_sort/track.py` (class `TrackState` and class `Track`).

The Python class is embedded shallowly: each attribute of a `Track`
instance becomes a field of the Lean structure `Track`, and each method
becomes a pure function `Track → ... → Track` returning the updated
object.  Numeric attributes (`hits`, `age`, `time_since_update`,
`_n_init`, `_max_age`) are Python non-negative integers and are modelled
as `Nat`.  Floating point data carried opaquely by the track (the
Kalman mean and covariance, feature vectors, bounding boxes) is
modelled over `ℚ`; the track never inspects these values except in the
two bounding-box accessors, whose arithmetic is exact.

The Kalman filter object passed to `predict`/`update` is external to
this file's source (`kalman_filter.KalmanFilter`); the track only calls
its `predict` and `update` methods and stores the results, so it is
modelled as an arbitrary pair of functions.  Likewise a `Detection`
only contributes `detection.to_xyah()` and `detection.feature`.
-/

set_option autoImplicit false

/-- `TrackState` from `track.py`: `Tentative = 1`, `Confirmed = 2`,
`Deleted = 3`. -/
inductive TrackState where
  | Tentative
  | Confirmed
  | Deleted
  deriving DecidableEq, Repr

/-- The interface of `kalman_filter.KalmanFilter` that `Track` consumes:
`predict(mean, covariance)` and `update(mean, covariance, measurement)`,
each returning a new `(mean, covariance)` pair. -/
structure KalmanFilter where
  predict : List ℚ → List (List ℚ) → List ℚ × List (List ℚ)
  update : List ℚ → List (List ℚ) → List ℚ → List ℚ × List (List ℚ)

/-- The interface of a `Detection` that `Track.update` consumes: the
measurement `detection.to_xyah()` and the embedding `detection.feature`. -/
structure Detection where
  to_xyah : List ℚ
  feature : List ℚ
  deriving DecidableEq, Repr

/-- The attributes of a `Track` instance, in the order `__init__`
assigns them.  `n_init` and `max_age` embed the private attributes
`_n_init` and `_max_age`. -/
structure Track where
  cfg : Unit
  mean : List ℚ
  covariance : List (List ℚ)
  track_id : ℕ
  hits : ℕ
  age : ℕ
  time_since_update : ℕ
  det_confidence : ℚ
  det_class : ℕ
  det_best_bbox : List ℚ
  state : TrackState
  features : List (List ℚ)
  n_init : ℕ
  max_age : ℕ
  track_line : List (ℚ × ℚ)
  deriving DecidableEq, Repr

namespace Track

/-- `Track.__init__`: sets `hits = 1`, `age = 1`, `time_since_update = 0`,
`state = TrackState.Tentative`, `features = []` and appends `feature`
when it is not `None`, then stores `_n_init`, `_max_age` and
`track_line = []`. -/
def init (cfg : Unit) (mean : List ℚ) (covariance : List (List ℚ))
    (track_id : ℕ) (n_init : ℕ) (max_age : ℕ) (det_confidence : ℚ)
    (det_class : ℕ) (det_best_bbox : List ℚ)
    (feature : Option (List ℚ)) : Track :=
  { cfg := cfg
    mean := mean
    covariance := covariance
    track_id := track_id
    hits := 1
    age := 1
    time_since_update := 0
    det_confidence := det_confidence
    det_class := det_class
    det_best_bbox := det_best_bbox
    state := TrackState.Tentative
    features := match feature with
      | some f => [f]
      | none => []
    n_init := n_init
    max_age := max_age
    track_line := [] }

/-- `Track.to_tlwh`: copies `mean[:4] = (x, y, a, h)`, then
`ret[2] *= ret[3]` and `ret[:2] -= ret[2:] / 2`, yielding
`(x - a*h/2, y - h/2, a*h, h)`.  `none` models the index error a mean
vector shorter than 4 would raise. -/
def to_tlwh (t : Track) : Option (ℚ × ℚ × ℚ × ℚ) :=
  match t.mean with
  | x :: y :: a :: h :: _ => some (x - a * h / 2, y - h / 2, a * h, h)
  | _ => none

/-- `Track.to_tlbr`: takes `to_tlwh()` and does `ret[2:] = ret[:2] + ret[2:]`,
yielding `(tlx, tly, tlx + w, tly + h)`. -/
def to_tlbr (t : Track) : Option (ℚ × ℚ × ℚ × ℚ) :=
  t.to_tlwh.map fun r => (r.1, r.2.1, r.1 + r.2.2.1, r.2.1 + r.2.2.2)

/-- `Track.predict(kf)`: `self.mean, self.covariance = kf.predict(...)`;
`self.age += 1`; `self.time_since_update += 1`. -/
def predict (t : Track) (kf : KalmanFilter) : Track :=
  let mc := kf.predict t.mean t.covariance
  { t with
    mean := mc.1
    covariance := mc.2
    age := t.age + 1
    time_since_update := t.time_since_update + 1 }

/-- `Track.update(kf, detection)`: `self.mean, self.covariance =
kf.update(..., detection.to_xyah())`; `self.features.append(detection.feature)`;
`self.hits += 1`; `self.time_since_update = 0`; then
`if self.state == Tentative and self.hits >= self._n_init: self.state = Confirmed`.
(The commented-out region-of-interest rules in the source are dead code.) -/
def update (t : Track) (kf : KalmanFilter) (detection : Detection) : Track :=
  let mc := kf.update t.mean t.covariance detection.to_xyah
  let t1 : Track :=
    { t with
      mean := mc.1
      covariance := mc.2
      features := t.features ++ [detection.feature]
      hits := t.hits + 1
      time_since_update := 0 }
  if t1.state = TrackState.Tentative ∧ t1.hits ≥ t1.n_init then
    { t1 with state := TrackState.Confirmed }
  else
    t1

/-- `Track.mark_missed()`: `if self.state == Tentative: state = Deleted;
elif self.time_since_update > self._max_age: state = Deleted`. -/
def mark_missed (t : Track) : Track :=
  if t.state = TrackState.Tentative then
    { t with state := TrackState.Deleted }
  else if t.time_since_update > t.max_age then
    { t with state := TrackState.Deleted }
  else
    t

/-- `Track.is_tentative()`. -/
def is_tentative (t : Track) : Bool :=
  t.state == TrackState.Tentative

/-- `Track.is_confirmed()`. -/
def is_confirmed (t : Track) : Bool :=
  t.state == TrackState.Confirmed

/-- `Track.is_deleted()`. -/
def is_deleted (t : Track) : Bool :=
  t.state == TrackState.Deleted

/-- `Track.delete()`: forces `state = Deleted`. -/
def delete (t : Track) : Track :=
  { t with state := TrackState.Deleted }

end Track

/-- One call made by the owning tracker on a live track: `predict(kf)`,
`update(kf, detection)` or `mark_missed()`. -/
inductive Op where
  | predictOp : KalmanFilter → Op
  | updateOp : KalmanFilter → Detection → Op
  | missOp : Op

/-- `true` exactly on `predict` calls. -/
def Op.isPredict : Op → Bool
  | Op.predictOp _ => true
  | _ => false

/-- `true` exactly on `update` calls. -/
def Op.isUpdate : Op → Bool
  | Op.updateOp _ _ => true
  | _ => false

/-- `true` exactly on `mark_missed` calls. -/
def Op.isMiss : Op → Bool
  | Op.missOp => true
  | _ => false

/-- Perform one call on a track. -/
def Track.applyOp (t : Track) : Op → Track
  | Op.predictOp kf => t.predict kf
  | Op.updateOp kf d => t.update kf d
  | Op.missOp => t.mark_missed

/-- Perform a sequence of calls on a track, left to right. -/
def Track.applyOps (t : Track) (ops : List Op) : Track :=
  ops.foldl Track.applyOp t

/-- A Kalman filter stub for concrete evaluations: both steps return
their inputs unchanged. -/
def idKF : KalmanFilter :=
  { predict := fun m c => (m, c)
    update := fun m c _ => (m, c) }

/-- A concrete detection for evaluations. -/
def det0 : Detection :=
  { to_xyah := [0, 0, 1, 1], feature := [1] }

/-! ### Helper lemmas about single calls -/

theorem applyOp_hits (t : Track) (op : Op) :
    (t.applyOp op).hits = t.hits + (if op.isUpdate then 1 else 0) := by
  cases op with
  | predictOp kf => simp [Track.applyOp, Track.predict, Op.isUpdate]
  | updateOp kf d =>
      simp only [Track.applyOp, Track.update, Op.isUpdate, if_pos]
      split <;> simp
  | missOp =>
      simp only [Track.applyOp, Track.mark_missed, Op.isUpdate]
      split
      · simp
      · split <;> simp

theorem applyOp_age (t : Track) (op : Op) :
    (t.applyOp op).age = t.age + (if op.isPredict then 1 else 0) := by
  cases op with
  | predictOp kf => simp [Track.applyOp, Track.predict, Op.isPredict]
  | updateOp kf d =>
      simp only [Track.applyOp, Track.update, Op.isPredict]
      split <;> simp
  | missOp =>
      simp only [Track.applyOp, Track.mark_missed, Op.isPredict]
      split
      · simp
      · split <;> simp

theorem applyOp_n_init (t : Track) (op : Op) :
    (t.applyOp op).n_init = t.n_init := by
  cases op with
  | predictOp kf => simp [Track.applyOp, Track.predict]
  | updateOp kf d =>
      simp only [Track.applyOp, Track.update]
      split <;> simp
  | missOp =>
      simp only [Track.applyOp, Track.mark_missed]
      split
      · simp
      · split <;> simp

theorem applyOps_hits (t : Track) (ops : List Op) :
    (t.applyOps ops).hits = t.hits + ops.countP Op.isUpdate := by
  induction ops generalizing t with
  | nil => simp [Track.applyOps]
  | cons op rest ih =>
      have h1 : (t.applyOps (op :: rest)) = ((t.applyOp op).applyOps rest) := by
        simp [Track.applyOps, List.foldl_cons]
      rw [h1, ih, applyOp_hits, List.countP_cons]
      cases hop : op.isUpdate
      · simp [hop]
      · simp only [hop, if_true, cond_true]
        omega

theorem applyOps_age (t : Track) (ops : List Op) :
    (t.applyOps ops).age = t.age + ops.countP Op.isPredict := by
  induction ops generalizing t with
  | nil => simp [Track.applyOps]
  | cons op rest ih =>
      have h1 : (t.applyOps (op :: rest)) = ((t.applyOp op).applyOps rest) := by
        simp [Track.applyOps, List.foldl_cons]
      rw [h1, ih, applyOp_age, List.countP_cons]
      cases hop : op.isPredict
      · simp [hop]
      · simp only [hop, if_true, cond_true]
        omega

theorem applyOps_n_init (t : Track) (ops : List Op) :
    (t.applyOps ops).n_init = t.n_init := by
  induction ops generalizing t with
  | nil => simp [Track.applyOps]
  | cons op rest ih =>
      have h1 : (t.applyOps (op :: rest)) = ((t.applyOp op).applyOps rest) := by
        simp [Track.applyOps, List.foldl_cons]
      rw [h1, ih, applyOp_n_init]

/-! ### C6, C7, C10, C3, C4: single-call behaviour -/

/-- C6: every freshly constructed Track is Tentative with `hits = 1`,
`age = 1`, `time_since_update = 0`, and its feature cache is exactly
`[f]` when the optional initial feature `some f` is supplied and `[]`
otherwise (`Option.toList`). -/
theorem C6_init_fields (cfg : Unit) (mean : List ℚ) (covariance : List (List ℚ))
    (track_id : ℕ) (n_init : ℕ) (max_age : ℕ) (det_confidence : ℚ)
    (det_class : ℕ) (det_best_bbox : List ℚ) (feature : Option (List ℚ)) :
    (Track.init cfg mean covariance track_id n_init max_age det_confidence
        det_class det_best_bbox feature).state = TrackState.Tentative ∧
    (Track.init cfg mean covariance track_id n_init max_age det_confidence
        det_class det_best_bbox feature).hits = 1 ∧
    (Track.init cfg mean covariance track_id n_init max_age det_confidence
        det_class det_best_bbox feature).age = 1 ∧
    (Track.init cfg mean covariance track_id n_init max_age det_confidence
        det_class det_best_bbox feature).time_since_update = 0 ∧
    (Track.init cfg mean covariance track_id n_init max_age det_confidence
        det_class det_best_bbox feature).features = feature.toList := by
  refine ⟨rfl, rfl, rfl, rfl, ?_⟩
  cases feature <;> rfl

/-- C7: `predict` replaces `mean`/`covariance` with the estimator's
prediction output, adds 1 to `age` and to `time_since_update`, and
leaves `state`, `hits` and the feature cache unchanged. -/
theorem C7_predict_effects (t : Track) (kf : KalmanFilter) :
    (t.predict kf).mean = (kf.predict t.mean t.covariance).1 ∧
    (t.predict kf).covariance = (kf.predict t.mean t.covariance).2 ∧
    (t.predict kf).age = t.age + 1 ∧
    (t.predict kf).time_since_update = t.time_since_update + 1 ∧
    (t.predict kf).state = t.state ∧
    (t.predict kf).hits = t.hits ∧
    (t.predict kf).features = t.features :=
  ⟨rfl, rfl, rfl, rfl, rfl, rfl, rfl⟩

/-- C10: `mark_missed` mutates at most the `state` field; `hits`, `age`,
`time_since_update`, `mean`, `covariance` and the feature cache are
unchanged. -/
theorem C10_mark_missed_frame (t : Track) :
    (t.mark_missed).hits = t.hits ∧
    (t.mark_missed).age = t.age ∧
    (t.mark_missed).time_since_update = t.time_since_update ∧
    (t.mark_missed).mean = t.mean ∧
    (t.mark_missed).covariance = t.covariance ∧
    (t.mark_missed).features = t.features := by
  unfold Track.mark_missed
  split
  · exact ⟨rfl, rfl, rfl, rfl, rfl, rfl⟩
  · split
    · exact ⟨rfl, rfl, rfl, rfl, rfl, rfl⟩
    · exact ⟨rfl, rfl, rfl, rfl, rfl, rfl⟩

/-- C3: on a Confirmed track, `mark_missed` deletes the track if and
only if `time_since_update > max_age`, and otherwise leaves it
Confirmed. -/
theorem C3_confirmed_mark_missed (t : Track)
    (h : t.state = TrackState.Confirmed) :
    ((t.mark_missed).state = TrackState.Deleted ↔
      t.time_since_update > t.max_age) ∧
    (¬ t.time_since_update > t.max_age →
      (t.mark_missed).state = TrackState.Confirmed) := by
  unfold Track.mark_missed
  rw [h]
  by_cases hgt : t.time_since_update > t.max_age
  · simp [hgt]
  · simp [hgt, h]

/-- C4: on a Tentative track, `mark_missed` deletes the track
unconditionally, whatever `time_since_update` is. -/
theorem C4_tentative_mark_missed (t : Track)
    (h : t.state = TrackState.Tentative) :
    (t.mark_missed).state = TrackState.Deleted := by
  unfold Track.mark_missed
  rw [h]
  simp

/-! ### Concrete tracks for witnesses -/

/-- A concrete freshly constructed track (`n_init = 3`, `max_age = 2`). -/
def track0 : Track :=
  Track.init () [0, 0, 1, 1, 0, 0, 0, 0] [] 7 3 2 (1/2) 0 [0, 0, 1, 1]
    (some [1])

/-- `track0` moved to the Confirmed state with 5 missed steps. -/
def trackC : Track :=
  { track0 with state := TrackState.Confirmed, time_since_update := 5 }

/-- `track0` moved to the Deleted state. -/
def trackD : Track :=
  { track0 with state := TrackState.Deleted }

/-- Witness for C3 at `trackC` (Confirmed, `time_since_update = 5`,
`max_age = 2`). -/
theorem C3_confirmed_mark_missed_witness :
    ((trackC.mark_missed).state = TrackState.Deleted ↔
      trackC.time_since_update > trackC.max_age) ∧
    (¬ trackC.time_since_update > trackC.max_age →
      (trackC.mark_missed).state = TrackState.Confirmed) :=
  C3_confirmed_mark_missed trackC rfl

/-- Witness for C4 at the Tentative track `track0`. -/
theorem C4_tentative_mark_missed_witness :
    (track0.mark_missed).state = TrackState.Deleted :=
  C4_tentative_mark_missed track0 rfl

/-! ### C5: Deleted is terminal -/

theorem applyOp_state_deleted (t : Track) (op : Op)
    (h : t.state = TrackState.Deleted) :
    (t.applyOp op).state = TrackState.Deleted := by
  cases op with
  | predictOp kf => simpa [Track.applyOp, Track.predict] using h
  | updateOp kf d => simp [Track.applyOp, Track.update, h]
  | missOp =>
      simp only [Track.applyOp, Track.mark_missed, h]
      split
      · rfl
      · split
        · rfl
        · exact h

/-- C5: once a track is Deleted, no sequence of `predict`, `update` or
`mark_missed` calls changes its state. -/
theorem C5_deleted_terminal (t : Track) (h : t.state = TrackState.Deleted)
    (ops : List Op) :
    (t.applyOps ops).state = TrackState.Deleted := by
  induction ops generalizing t with
  | nil => simpa [Track.applyOps] using h
  | cons op rest ih =>
      have h1 : (t.applyOps (op :: rest)) = ((t.applyOp op).applyOps rest) := by
        simp [Track.applyOps, List.foldl_cons]
      rw [h1]
      exact ih _ (applyOp_state_deleted t op h)

/-- Witness for C5 at `trackD` and a concrete call sequence. -/
theorem C5_deleted_terminal_witness :
    (trackD.applyOps
      [Op.predictOp idKF, Op.updateOp idKF det0, Op.missOp]).state =
      TrackState.Deleted :=
  C5_deleted_terminal trackD rfl _

/-! ### C9: update on a Deleted track applies every non-state effect -/

/-- C9: `update` on a Deleted track still replaces `mean`/`covariance`
with the estimator's measurement-update output, appends the detection's
feature, increments `hits` and resets `time_since_update`, while the
state stays Deleted. -/
theorem C9_update_deleted (t : Track) (kf : KalmanFilter) (d : Detection)
    (h : t.state = TrackState.Deleted) :
    (t.update kf d).mean = (kf.update t.mean t.covariance d.to_xyah).1 ∧
    (t.update kf d).covariance = (kf.update t.mean t.covariance d.to_xyah).2 ∧
    (t.update kf d).features = t.features ++ [d.feature] ∧
    (t.update kf d).hits = t.hits + 1 ∧
    (t.update kf d).time_since_update = 0 ∧
    (t.update kf d).state = TrackState.Deleted := by
  simp [Track.update, h]

/-- Witness for C9 at `trackD`. -/
theorem C9_update_deleted_witness :
    (trackD.update idKF det0).mean =
      (idKF.update trackD.mean trackD.covariance det0.to_xyah).1 ∧
    (trackD.update idKF det0).covariance =
      (idKF.update trackD.mean trackD.covariance det0.to_xyah).2 ∧
    (trackD.update idKF det0).features = trackD.features ++ [det0.feature] ∧
    (trackD.update idKF det0).hits = trackD.hits + 1 ∧
    (trackD.update idKF det0).time_since_update = 0 ∧
    (trackD.update idKF det0).state = TrackState.Deleted :=
  C9_update_deleted trackD idKF det0 rfl

/-! ### C8: bounding-box accessors are consistent -/

/-- C8: whenever both accessors return a box, the corner form's min
corner equals the top-left form's top-left corner and the corner form's
extent equals the top-left form's width and height.  Both accessors are
pure functions of the track (the source copies `mean[:4]`), so neither
mutates `mean`. -/
theorem C8_tlwh_tlbr_consistent (t : Track) (tl br : ℚ × ℚ × ℚ × ℚ)
    (h1 : t.to_tlwh = some tl) (h2 : t.to_tlbr = some br) :
    br.1 = tl.1 ∧ br.2.1 = tl.2.1 ∧
    br.2.2.1 - br.1 = tl.2.2.1 ∧ br.2.2.2 - br.2.1 = tl.2.2.2 := by
  rw [Track.to_tlbr, h1] at h2
  simp only [Option.map_some', Option.some.injEq] at h2
  subst h2
  refine ⟨rfl, rfl, ?_, ?_⟩ <;> ring

/-- The top-left box of `track0` (mean `(0, 0, 1, 1)`). -/
def tl0 : ℚ × ℚ × ℚ × ℚ := (-(1/2), -(1/2), 1, 1)

/-- The corner box of `track0`. -/
def br0 : ℚ × ℚ × ℚ × ℚ := (-(1/2), -(1/2), 1/2, 1/2)

/-- Witness for C8 at `track0`. -/
theorem C8_tlwh_tlbr_consistent_witness :
    br0.1 = tl0.1 ∧ br0.2.1 = tl0.2.1 ∧
    br0.2.2.1 - br0.1 = tl0.2.2.1 ∧ br0.2.2.2 - br0.2.1 = tl0.2.2.2 :=
  C8_tlwh_tlbr_consistent track0 tl0 br0
    (by norm_num [Track.to_tlwh, track0, Track.init, tl0])
    (by norm_num [Track.to_tlbr, Track.to_tlwh, track0, Track.init, br0])

/-! ### C2: counter arithmetic -/

/-- Counterexample to C2 as stated: constructing a track and calling
`update` once (a legal sequence of predict/update calls with no
`predict`) gives `hits = 2` but `age = 1`, so `age ≥ hits` fails. -/
theorem C2_age_ge_hits_counterexample :
    ¬ ((track0.applyOps [Op.updateOp idKF det0]).hits ≤
       (track0.applyOps [Op.updateOp idKF det0]).age) := by
  decide

/-- C2 amended: after any call sequence from construction, `hits ≥ 1`
always holds, and `age ≥ hits` holds provided the sequence contains at
least as many `predict` calls as `update` calls (as in the intended
one-predict-per-step usage); an `update` not balanced by a `predict`
raises `hits` above `age`. -/
theorem C2_amended_counter_invariants (cfg : Unit) (mean : List ℚ)
    (covariance : List (List ℚ)) (track_id : ℕ) (n_init : ℕ) (max_age : ℕ)
    (det_confidence : ℚ) (det_class : ℕ) (det_best_bbox : List ℚ)
    (feature : Option (List ℚ)) (ops : List Op) :
    1 ≤ ((Track.init cfg mean covariance track_id n_init max_age
        det_confidence det_class det_best_bbox feature).applyOps ops).hits ∧
    (ops.countP Op.isUpdate ≤ ops.countP Op.isPredict →
      ((Track.init cfg mean covariance track_id n_init max_age
          det_confidence det_class det_best_bbox feature).applyOps ops).hits ≤
        ((Track.init cfg mean covariance track_id n_init max_age
          det_confidence det_class det_best_bbox feature).applyOps ops).age) := by
  have h1 : (Track.init cfg mean covariance track_id n_init max_age
      det_confidence det_class det_best_bbox feature).hits = 1 := rfl
  have h2 : (Track.init cfg mean covariance track_id n_init max_age
      det_confidence det_class det_best_bbox feature).age = 1 := rfl
  rw [applyOps_hits, applyOps_age, h1, h2]
  constructor
  · omega
  · intro h
    omega

/-- Witness for the amended C2: the unconditional `hits ≥ 1` part at a
lone unbalanced `update`, and the balanced part at a concrete
one-predict-one-update sequence. -/
theorem C2_amended_counter_invariants_witness :
    1 ≤ ((Track.init () [] [] 0 3 2 0 0 [] none).applyOps
        [Op.updateOp idKF det0]).hits ∧
    ((Track.init () [] [] 0 3 2 0 0 [] none).applyOps
        [Op.predictOp idKF, Op.updateOp idKF det0]).hits ≤
      ((Track.init () [] [] 0 3 2 0 0 [] none).applyOps
        [Op.predictOp idKF, Op.updateOp idKF det0]).age :=
  ⟨(C2_amended_counter_invariants () [] [] 0 3 2 0 0 [] none
      [Op.updateOp idKF det0]).1,
   (C2_amended_counter_invariants () [] [] 0 3 2 0 0 [] none
      [Op.predictOp idKF, Op.updateOp idKF det0]).2 (by decide)⟩

/-! ### C1: confirmation timing -/

/-- The lifecycle invariant along miss-free runs: the track is Confirmed
exactly when `hits` has reached `n_init` and Tentative exactly when it
has not. -/
def confirmedIffHits (t : Track) : Prop :=
  (t.is_confirmed = true ↔ t.n_init ≤ t.hits) ∧
  (t.is_tentative = true ↔ t.hits < t.n_init)

theorem update_hits (t : Track) (kf : KalmanFilter) (d : Detection) :
    (t.update kf d).hits = t.hits + 1 := by
  simp only [Track.update]
  split
  · rfl
  · rfl

theorem update_n_init_eq (t : Track) (kf : KalmanFilter) (d : Detection) :
    (t.update kf d).n_init = t.n_init := by
  simp only [Track.update]
  split
  · rfl
  · rfl

theorem update_state (t : Track) (kf : KalmanFilter) (d : Detection) :
    (t.update kf d).state =
      if t.state = TrackState.Tentative ∧ t.hits + 1 ≥ t.n_init then
        TrackState.Confirmed
      else t.state := by
  simp only [Track.update]
  split_ifs with h1
  · rfl
  · rfl

theorem applyOp_confirmedIffHits (t : Track) (op : Op)
    (hmiss : op.isMiss = false) (h : confirmedIffHits t) :
    confirmedIffHits (t.applyOp op) := by
  obtain ⟨hC, hT⟩ := h
  simp only [Track.is_confirmed, Track.is_tentative, beq_iff_eq] at hC hT
  cases op with
  | predictOp kf =>
      constructor
      · simpa [confirmedIffHits, Track.applyOp, Track.predict,
          Track.is_confirmed] using hC
      · simpa [confirmedIffHits, Track.applyOp, Track.predict,
          Track.is_tentative] using hT
  | updateOp kf d =>
      have hh := update_hits t kf d
      have hn := update_n_init_eq t kf d
      have hs := update_state t kf d
      simp only [confirmedIffHits, Track.applyOp, Track.is_confirmed,
        Track.is_tentative, beq_iff_eq]
      rw [hh, hn, hs]
      by_cases hp : t.state = TrackState.Tentative ∧ t.hits + 1 ≥ t.n_init
      · rw [if_pos hp]
        have hge := hp.2
        constructor
        · simpa using hge
        · simp
          omega
      · rw [if_neg hp]
        cases hstate : t.state with
        | Tentative =>
            have hlt := hT.mp hstate
            have hnge : ¬ t.hits + 1 ≥ t.n_init := fun hge => hp ⟨hstate, hge⟩
            constructor
            · simp
              omega
            · simp
              omega
        | Confirmed =>
            have hge := hC.mp hstate
            constructor
            · simp
              omega
            · simp
              omega
        | Deleted =>
            rw [hstate] at hC hT
            simp only [reduceCtorEq, false_iff] at hC hT
            exfalso
            omega
  | missOp => simp [Op.isMiss] at hmiss

theorem applyOps_confirmedIffHits (t : Track) (ops : List Op) :
    confirmedIffHits t → (∀ op ∈ ops, op.isMiss = false) →
    confirmedIffHits (t.applyOps ops) := by
  induction ops generalizing t with
  | nil =>
      intro h _
      simpa [Track.applyOps] using h
  | cons op rest ih =>
      intro h hm
      have h1 : t.applyOps (op :: rest) = (t.applyOp op).applyOps rest := by
        simp [Track.applyOps, List.foldl_cons]
      rw [h1]
      exact ih _
        (applyOp_confirmedIffHits t op (hm op (List.mem_cons_self op rest)) h)
        (fun o ho => hm o (List.mem_cons_of_mem op ho))

/-- C1 amended: for `n_init ≥ 2` and any sequence of `predict`/`update`
calls with no `mark_missed`, after every prefix the track is Confirmed
exactly when `hits ≥ n_init` and Tentative exactly when `hits < n_init`;
so `is_confirmed` first becomes true at the `update` in which `hits`
first reaches `n_init`, never earlier, and the transition fires only
inside `update`. -/
theorem C1_amended_confirmed_iff_hits (cfg : Unit) (mean : List ℚ)
    (covariance : List (List ℚ)) (track_id : ℕ) (n_init : ℕ) (max_age : ℕ)
    (det_confidence : ℚ) (det_class : ℕ) (det_best_bbox : List ℚ)
    (feature : Option (List ℚ)) (hn : 2 ≤ n_init) (ops : List Op)
    (hm : ∀ op ∈ ops, op.isMiss = false) :
    confirmedIffHits ((Track.init cfg mean covariance track_id n_init max_age
      det_confidence det_class det_best_bbox feature).applyOps ops) := by
  apply applyOps_confirmedIffHits _ ops _ hm
  constructor
  · simp only [Track.is_confirmed, Track.init, beq_iff_eq, reduceCtorEq,
      false_iff]
    omega
  · simp only [Track.is_tentative, Track.init, beq_iff_eq, true_iff]
    omega

/-- Witness for the amended C1: `n_init = 3`, two consecutive updates. -/
theorem C1_amended_confirmed_iff_hits_witness :
    confirmedIffHits ((Track.init () [] [] 0 3 2 0 0 [] none).applyOps
      [Op.updateOp idKF det0, Op.updateOp idKF det0]) :=
  C1_amended_confirmed_iff_hits () [] [] 0 3 2 0 0 [] none (by decide)
    [Op.updateOp idKF det0, Op.updateOp idKF det0] (by decide)

/-- A concrete freshly constructed track with `n_init = 1`. -/
def track1 : Track :=
  Track.init () [0, 0, 1, 1, 0, 0, 0, 0] [] 3 1 2 1 0 [] none

/-- Counterexample to C1 as stated: with `n_init = 1` the freshly
constructed track already satisfies `hits ≥ n_init` yet `is_confirmed()`
is false (it is still Tentative); `is_confirmed()` first becomes true
only at the first `update`, where `hits = 2` has already passed
`n_init`. -/
theorem C1_counterexample :
    track1.n_init ≤ track1.hits ∧
    track1.is_confirmed = false ∧
    track1.is_tentative = true ∧
    (track1.applyOps [Op.updateOp idKF det0]).is_confirmed = true ∧
    (track1.applyOps [Op.updateOp idKF det0]).hits = 2 := by
  decide
